import Mathlib

/-!
Verification of the Kielo2025 grammar-correction pipeline
(src/KieloApp: wordgrammarchecker.py, discriminator.py, app.py).

The Python code is shallowly embedded: JSON values become an inductive
type, Python dict/list primitives become explicit functions that return
an exception value where Python would raise, and each source function
becomes a Lean definition following the source line by line.  External
oracle calls are modelled by their outcomes, passed in as arguments.
-/

namespace KieloApp

/-- JSON values, as produced by json.loads and by pydantic model_dump.
Numbers are modelled as integers, which covers every value the claims
touch.  Objects are association lists; Python dicts have unique keys, so
first-match lookup coincides with dict lookup. -/
inductive Json where
  | null : Json
  | bool (b : Bool) : Json
  | num (n : Int) : Json
  | str (s : String) : Json
  | arr (xs : List Json) : Json
  | obj (kvs : List (String × Json)) : Json
deriving Repr

/-- Python exception classes that can escape the embedded code paths. -/
inductive PyErr where
  | jsonDecodeError : PyErr
  | typeError : PyErr
  | attributeError : PyErr
deriving Repr, DecidableEq

/-- Python d.get(key, default): plain lookup with default on a dict;
AttributeError on any non-dict receiver. -/
def pyGet (v : Json) (key : String) (default : Json) : Except PyErr Json :=
  match v with
  | .obj kvs => .ok ((kvs.lookup key).getD default)
  | _ => .error .attributeError

/-- Python len(): defined for lists, strings and dicts; TypeError otherwise. -/
def pyLen : Json → Except PyErr Nat
  | .arr xs => .ok xs.length
  | .str s => .ok s.length
  | .obj kvs => .ok kvs.length
  | _ => .error .typeError

/-- Python x < n with n an int: ints compare; bools compare as 0/1;
any other operand raises TypeError. -/
def pyLtInt : Json → Int → Except PyErr Bool
  | .num m, n => .ok (decide (m < n))
  | .bool b, n => .ok (decide ((if b then (1 : Int) else 0) < n))
  | _, _ => .error .typeError

/-- Python x[:k]: lists and strings slice; any other receiver raises
TypeError. -/
def pySliceTo : Json → Nat → Except PyErr Json
  | .arr xs, k => .ok (.arr (xs.take k))
  | .str s, k => .ok (.str (s.take k))
  | _, _ => .error .typeError

/-- The message content of an oracle response, modelled by its json.loads
decode outcome: `absent` is Python None (json.loads(None) raises
TypeError), `malformed s` is a string on which json.loads raises
JSONDecodeError, and `parsed j` is a string whose decode is `j`.  Every
possible content string falls into exactly one of the last two cases, so
quantifying over ContentV covers all wire-level payloads. -/
inductive ContentV where
  | absent : ContentV
  | malformed (s : String) : ContentV
  | parsed (j : Json) : ContentV

/-- json.loads applied to a message content value (see ContentV). -/
def jsonLoads : ContentV → Except PyErr Json
  | .absent => .error .typeError
  | .malformed _ => .error .jsonDecodeError
  | .parsed j => .ok j

/-- The message part of one choice of a chat-completion model_dump. -/
structure Message where
  content : ContentV

/-- One element of the choices list; `message = none` models a dump in
which the "message" key is missing, so that .get("message", \x7b\x7d)
returns the empty dict. -/
structure Choice where
  message : Option Message

/-- A chat-completion model_dump, restricted to the fields that
extract_corrections reads; `choices = none` models a dump in which the
"choices" key is missing, so that .get("choices", []) returns []. -/
structure Resp where
  choices : Option (List Choice)

/-- choices[0].get("message", \x7b\x7d).get("content", ""): a missing
message dict or content key yields the empty string, which fails JSON
decoding. -/
def contentOf (c : Choice) : ContentV :=
  (c.message.map Message.content).getD (ContentV.malformed "")

/-- WordGrammarChecker.extract_corrections (wordgrammarchecker.py lines
132-148).  The try block wraps json.loads and the three .get calls but
catches only json.JSONDecodeError, so an AttributeError from .get on a
non-dict, or the TypeError from json.loads(None), escapes. -/
def extract_corrections (response_model : Option Resp) :
    Except PyErr (Json × Json) :=
  match response_model with
  | none => .ok (.arr [], .str "")
  | some rm =>
    match rm.choices.getD [] with
    | [] => .ok (.arr [], .str "")
    | c0 :: _ =>
      match jsonLoads (contentOf c0) with
      | .error .jsonDecodeError => .ok (.arr [], .str "")
      | .error e => .error e
      | .ok data => do
        let props ← pyGet data "properties" (.obj [])
        let corrections ← pyGet props "corrections" (.arr [])
        let suggestion ← pyGet props "suggestion" (.str "")
        .ok (corrections, suggestion)

/-- WordGrammarChecker.process_text, applied one response at a time: the
source loop appends extract_corrections(resp_model) for each surviving
response in order, so an exception raised for one response aborts the
loop, exactly as this sequential recursion does. -/
def extractAll : List Resp → Except PyErr (List (Json × Json))
  | [] => .ok []
  | r :: rs => do
    let p ← extract_corrections (some r)
    let ps ← extractAll rs
    .ok (p :: ps)

/-- WordGrammarChecker.process_text (wordgrammarchecker.py lines
150-197), as a function of the gathered oracle call outcomes.
asyncio.gather returns results in submission order, and make_api_call
returns None for a failed call, so the argument is the submission-ordered
list of per-slot outcomes; the payload construction, logging and the log
file write do not affect the returned value and are omitted. -/
def process_text (responses : List (Option Resp)) :
    Except PyErr (List (Json × Json) × List Resp) :=
  let resps := responses.filterMap id
  if resps.isEmpty then .ok ([], resps)
  else do
    let results ← extractAll resps
    .ok (results, resps)

/-- Python "string".strip(chars) for the char set of the two quote
characters: drop matching characters from both ends. -/
def isQuoteChar (c : Char) : Bool := c = '"' || c = '\''

/-- api_key.strip of the quote characters, as in
WordGrammarChecker.__init__ line 30. -/
def pyStripQuotes (s : String) : String :=
  String.mk (((s.toList.dropWhile isQuoteChar).reverse.dropWhile isQuoteChar).reverse)

/-- The state WordGrammarChecker.__init__ records (wordgrammarchecker.py
lines 14-32); the semaphore and client construction carry no further
data beyond max_concurrent_requests and the api key. -/
structure CheckerConfig where
  api_key : String
  system_prompt : String
  max_concurrent_requests : Nat
  n_responses : Nat
  chosen_model : String

/-- WordGrammarChecker.__init__: records its arguments; the api key is
quote-stripped when non-empty and starting with a quote.  The source
performs no validation of chosen_model, so construction never fails. -/
def checkerInit (api_key system_prompt : String)
    (max_concurrent_requests n_responses : Nat) (chosen_model : String) :
    CheckerConfig :=
  let key := if api_key ≠ "" && (api_key.startsWith "\"" || api_key.startsWith "'")
    then pyStripQuotes api_key else api_key
  ⟨key, system_prompt, max_concurrent_requests, n_responses, chosen_model⟩

/-- The model-selection part of WordGrammarChecker.create_payload
(wordgrammarchecker.py lines 34-44 and 115-117): the chosen model name,
the role keyword of the first message, and the optional reasoning_effort
field added to the payload. -/
structure PayloadCore where
  model : String
  system_role_key : String
  reasoning_effort : Option String
deriving Repr, DecidableEq

/-- create_payload's branch on chosen_model: "slow" selects o3-mini with
the developer role and reasoning_effort high; every other string falls
to the else branch selecting gpt-4o with the system role. -/
def create_payload (chosen_model : String) : PayloadCore :=
  if chosen_model = "slow" then ⟨"o3-mini", "developer", some "high"⟩
  else ⟨"gpt-4o", "system", none⟩

/-- The parameter names of WordGrammarChecker.__init__ after self
(wordgrammarchecker.py line 14). -/
def wordGrammarCheckerInitParams : List String :=
  ["api_key", "system_prompt", "max_concurrent_requests", "n_responses",
   "chosen_model"]

/-- The keyword-argument names app.py's process_sections passes to
WordGrammarChecker (app.py lines 175-181), after the two positional
arguments api_key and system_prompt. -/
def processSectionsCheckerKwargs : List String :=
  ["n_responses", "chosen_model", "use_discriminator"]

/-- Python keyword binding: a call raises TypeError exactly when some
keyword is not among the callee's parameter names. -/
def kwargsCallRaisesTypeError (params kwargs : List String) : Bool :=
  kwargs.any (fun k => !params.contains k)

/-- Outcome of the discriminator oracle call in
GrammarDiscriminator.validate_corrections: `fail msg` models any
exception raised inside the try block before the logging line (API
error, json.loads failure, or a decode to a non-dict making
validation_result.get raise); `ok vr` models a call whose content
decoded to the JSON object `vr`.  The logging line's len() calls, which
are also inside the try block, are modelled explicitly in
validate_corrections below. -/
inductive DOutcome where
  | fail (msg : String) : DOutcome
  | ok (vr : List (String × Json)) : DOutcome

/-- The fallback dict built in validate_corrections' except branch
(discriminator.py lines 118-127). -/
def fallbackResult (corrections : List Json) (msg : String) :
    List (String × Json) :=
  [("valid_corrections", .arr corrections),
   ("rejected_corrections", .arr []),
   ("quality_score", .num 50),
   ("summary", .str ("Validation failed: " ++ msg ++ ". Returned all corrections.")),
   ("error", .str msg)]

/-- GrammarDiscriminator.validate_corrections (discriminator.py lines
65-127), as a function of the oracle outcome.  On success the logging
line applies len() to validation_result.get("valid_corrections", [])
and .get("rejected_corrections", []); a TypeError there is still inside
the try block and therefore also produces the fallback dict.
original_text only alters the prompt sent to the oracle, which is
subsumed by the outcome argument. -/
def validate_corrections (corrections : List Json) (original_text : String)
    (outcome : DOutcome) : List (String × Json) :=
  match outcome with
  | .fail msg => fallbackResult corrections msg
  | .ok vr =>
    match pyLen ((vr.lookup "valid_corrections").getD (.arr [])),
          pyLen ((vr.lookup "rejected_corrections").getD (.arr [])) with
    | .ok _, .ok _ => vr
    | _, _ => fallbackResult corrections "TypeError"

/-- The body of GrammarDiscriminator.filter_corrections after the
validate_corrections call (discriminator.py lines 146-169).
validation_result is always a dict there, so its .get calls are plain
lookups with defaults; the quality comparison, len and slice can each
raise TypeError, which escapes (filter_corrections has no try/except of
its own). -/
def filter_post (corrections : List Json) (min_quality_score : Int)
    (validation_result : List (String × Json)) :
    Except PyErr (Json × Json) := do
  let valid0 := (validation_result.lookup "valid_corrections").getD (.arr [])
  let quality_score := (validation_result.lookup "quality_score").getD (.num 0)
  let low ← pyLtInt quality_score min_quality_score
  let valid_corrections ←
    if low then do
      let n ← pyLen valid0
      pySliceTo valid0 (max 1 (n / 2))
    else pure valid0
  let filtered_count ← pyLen valid_corrections
  let rejected := (validation_result.lookup "rejected_corrections").getD (.arr [])
  let rejected_count ← pyLen rejected
  pure (valid_corrections,
    .obj [("discriminator_used", .bool true),
          ("quality_score", quality_score),
          ("original_count", .num corrections.length),
          ("filtered_count", .num filtered_count),
          ("rejected_count", .num rejected_count),
          ("summary", (validation_result.lookup "summary").getD (.str "")),
          ("rejected_reasons", rejected)])

/-- GrammarDiscriminator.filter_corrections (discriminator.py lines
129-169): validate, then apply the quality threshold and build the
metadata. -/
def filter_corrections (corrections : List Json) (original_text : String)
    (min_quality_score : Int) (outcome : DOutcome) :
    Except PyErr (Json × Json) :=
  filter_post corrections min_quality_score
    (validate_corrections corrections original_text outcome)

/-- str(e) for the exceptions that can escape filter_corrections,
used when batch_validate stores the error in its fallback metadata. -/
def pyErrStr : PyErr → String
  | .jsonDecodeError => "JSONDecodeError"
  | .typeError => "TypeError"
  | .attributeError => "AttributeError"

/-- GrammarDiscriminator.batch_validate (discriminator.py lines
171-211), as a function of each task's oracle outcome.  The tasks are
one filter_corrections call per zipped (batch, text) pair with the
default threshold 70; asyncio.gather with return_exceptions=True
returns, in submission order, either the task's value or the exception
it raised; the enumeration loop then replaces an exception at slot i by
(correction_batches[i], error metadata). -/
def batch_validate (correction_batches : List (List Json))
    (original_texts : Option (List String)) (outcomes : List DOutcome) :
    List (Json × Json) :=
  let texts := original_texts.getD (List.replicate correction_batches.length "")
  let results := ((correction_batches.zip texts).zip outcomes).map
    (fun bto => filter_corrections bto.1.1 bto.1.2 70 bto.2)
  results.enum.map (fun ir =>
    match ir.2 with
    | .error e =>
        (Json.arr (correction_batches.getD ir.1 []),
         Json.obj [("error", Json.str (pyErrStr e)),
                   ("discriminator_used", Json.bool false)])
    | .ok r => r)

/-- State of the bounded fan-out performed by process_text: `pending`
tasks have not yet entered make_api_call's async-with block, `inflight`
tasks are inside it (an oracle call in flight), and `sem` is the
asyncio.Semaphore counter, initialised to max_concurrent_requests
(wordgrammarchecker.py lines 21-22 and 121-130). -/
structure FanState where
  pending : Nat
  inflight : Nat
  sem : Nat
deriving Repr, DecidableEq

/-- The scheduler state when process_text has just created `count`
make_api_call tasks under a semaphore of capacity `limit`. -/
def initFanState (limit count : Nat) : FanState :=
  ⟨count, 0, limit⟩

/-- One cooperative-scheduler step of the fan-out: a pending task
acquires the semaphore, which asyncio only grants while the counter is
positive (the `s + 1` pattern), or an in-flight task finishes its call
and releases on leaving the async-with block. -/
inductive FanStep : FanState → FanState → Prop
  | acquire (p i s : Nat) : FanStep ⟨p + 1, i, s + 1⟩ ⟨p, i + 1, s⟩
  | release (p i s : Nat) : FanStep ⟨p, i + 1, s⟩ ⟨p, i, s + 1⟩

/-- The states the fan-out can reach from its initial state. -/
def FanReachable (limit count : Nat) (st : FanState) : Prop :=
  Relation.ReflTransGen FanStep (initFanState limit count) st

/-- The inputs on which extract_corrections soft-fails to ([], ""): an
absent response, an absent or empty choices list, or a first choice
whose message content fails JSON decoding (including a missing message
dict or content key, which yield the empty string). -/
def softFailInput : Option Resp → Prop
  | none => True
  | some rm =>
      rm.choices.getD [] = [] ∨
      ∃ c0 rest s, rm.choices.getD [] = c0 :: rest ∧
        contentOf c0 = ContentV.malformed s

/-- Discriminator outcomes whose reported quality score is either absent
or an integer in [0, 100]; filter_corrections copies the reported value
into its metadata without clamping, so the range invariant holds exactly
on these outcomes (and on failed calls, where the score is 50). -/
def qsReportedOk : DOutcome → Prop
  | .fail _ => True
  | .ok vr =>
      match vr.lookup "quality_score" with
      | none => True
      | some (Json.num q) => 0 ≤ q ∧ q ≤ 100
      | some _ => False

/-- C1: the claim says each response's correction list is validated by
the ValidationFilter composed by the controller.  In the code the
controller (app.py process_sections) passes the keyword argument
use_discriminator to WordGrammarChecker, whose constructor does not
accept it, so the call raises TypeError on every request; no
discriminator stage exists anywhere in WordGrammarChecker.process_text. -/
theorem process_sections_use_discriminator_raises :
    kwargsCallRaisesTypeError wordGrammarCheckerInitParams
      processSectionsCheckerKwargs = true ∧
    wordGrammarCheckerInitParams.contains "use_discriminator" = false := by
  decide

/-- C2: the claim (and the fallback's own summary text) says a failed
discriminator call returns all input corrections unfiltered with
quality_score 50.  In the code the fallback score 50 is below the
default threshold 70, so the degraded-trust truncation fires on the
fallback list: a 4-correction input returns only the first 2
corrections, with the metadata still reporting the full summary string. -/
theorem filter_fail_open_truncates :
    filter_corrections
        [Json.str "c1", Json.str "c2", Json.str "c3", Json.str "c4"] "" 70
        (DOutcome.fail "boom") =
      Except.ok (Json.arr [Json.str "c1", Json.str "c2"],
        Json.obj [("discriminator_used", Json.bool true),
                  ("quality_score", Json.num 50),
                  ("original_count", Json.num 4),
                  ("filtered_count", Json.num 2),
                  ("rejected_count", Json.num 0),
                  ("summary", Json.str "Validation failed: boom. Returned all corrections."),
                  ("rejected_reasons", Json.arr [])]) := by
  rfl

/-- C3 counterexample: the claim says the returned list is never empty
when the input corrections list is non-empty.  With a non-empty input
whose discriminator verdict accepts nothing (valid_corrections empty,
quality 0), the truncation of the empty accepted list is empty. -/
theorem filter_low_quality_empty_cex :
    filter_corrections [Json.str "c1"] "" 70
        (DOutcome.ok [("valid_corrections", Json.arr []),
                      ("quality_score", Json.num 0)]) =
      Except.ok (Json.arr [],
        Json.obj [("discriminator_used", Json.bool true),
                  ("quality_score", Json.num 0),
                  ("original_count", Json.num 1),
                  ("filtered_count", Json.num 0),
                  ("rejected_count", Json.num 0),
                  ("summary", Json.str ""),
                  ("rejected_reasons", Json.arr [])]) ∧
    ([Json.str "c1"] : List Json) ≠ [] := by
  exact ⟨rfl, by simp⟩

/-- C4 counterexample: the claim says extract_corrections never raises.
A response whose message content decodes to a JSON array reaches
data.get("properties", ...) with a list receiver, raising
AttributeError, which the except clause (json.JSONDecodeError only)
does not catch. -/
theorem extract_raises_on_array_content :
    extract_corrections
        (some ⟨some [⟨some ⟨ContentV.parsed (Json.arr [])⟩⟩]⟩) =
      Except.error PyErr.attributeError := by
  rfl

/-- C4 amended: extract_corrections returns ([], "") for an absent
response, an absent or empty choices list, and content that fails JSON
decoding; content decoding to a non-object raises instead. -/
theorem extract_soft_fail_cases (ro : Option Resp) (h : softFailInput ro) :
    extract_corrections ro = Except.ok (Json.arr [], Json.str "") := by
  match ro with
  | none => rfl
  | some rm =>
    rcases h with h | ⟨c0, rest, s, h1, h2⟩
    · simp [extract_corrections, h]
    · simp [extract_corrections, h1, h2, jsonLoads]

/-- C4 witness: a response whose first choice lacks a message dict
yields the empty content string, which soft-fails to ([], ""). -/
theorem extract_soft_fail_cases_witness :
    extract_corrections (some ⟨some [⟨none⟩]⟩) =
      Except.ok (Json.arr [], Json.str "") :=
  extract_soft_fail_cases (some ⟨some [⟨none⟩]⟩)
    (Or.inr ⟨⟨none⟩, [], "", rfl, rfl⟩)

/-- C8 counterexample: the claim says an unrecognized model variant
fails fast at construction.  Constructing with the unrecognized variant
"turbo" succeeds (nothing validates chosen_model) and its payload is
exactly the fast preset. -/
theorem unknown_model_silently_fast_cex :
    (checkerInit "k" "p" 5 1 "turbo").chosen_model = "turbo" ∧
    create_payload "turbo" = ⟨"gpt-4o", "system", none⟩ ∧
    create_payload "turbo" = create_payload "fast" := by
  exact ⟨rfl, by decide, by decide⟩

/-- C8 amended: no preset validation exists; every chosen_model other
than "slow" — recognized or not — is silently treated as the fast
preset (gpt-4o, system role, no reasoning_effort), and construction
records it unchanged. -/
theorem create_payload_defaults_to_fast (m : String) (h : m ≠ "slow") :
    create_payload m = ⟨"gpt-4o", "system", none⟩ ∧
    (checkerInit "k" "p" 5 1 m).chosen_model = m := by
  refine ⟨?_, rfl⟩
  simp [create_payload, h]

/-- C8 witness: the unrecognized variant "turbo" is treated as fast. -/
theorem create_payload_defaults_to_fast_witness :
    create_payload "turbo" = ⟨"gpt-4o", "system", none⟩ ∧
    (checkerInit "k" "p" 5 1 "turbo").chosen_model = "turbo" :=
  create_payload_defaults_to_fast "turbo" (by decide)

/-- C9 counterexample: the claim says the metadata quality_score always
lies in [0, 100].  A discriminator response reporting 150 is copied
into the metadata verbatim, with no clamping. -/
theorem quality_score_out_of_range_cex :
    filter_corrections [] "" 70 (DOutcome.ok [("quality_score", Json.num 150)]) =
      Except.ok (Json.arr [],
        Json.obj [("discriminator_used", Json.bool true),
                  ("quality_score", Json.num 150),
                  ("original_count", Json.num 0),
                  ("filtered_count", Json.num 0),
                  ("rejected_count", Json.num 0),
                  ("summary", Json.str ""),
                  ("rejected_reasons", Json.arr [])]) ∧
    ¬ ((150 : Int) ≤ 100) := by
  exact ⟨rfl, by decide⟩

/-- Invariant of the bounded fan-out: acquiring moves a unit from the
semaphore counter to the in-flight count and releasing moves it back,
so their sum stays at the configured limit. -/
theorem fan_invariant (limit count : Nat) (st : FanState)
    (h : FanReachable limit count st) : st.inflight + st.sem = limit := by
  induction h with
  | refl => simp [initFanState]
  | tail _ step ih =>
    cases step with
    | acquire p i s => simp only [] at ih ⊢; omega
    | release p i s => simp only [] at ih ⊢; omega

/-- C6: in every state the fan-out can reach, at most
max_concurrent_requests oracle calls are in flight, because each
in-flight call holds one unit of the semaphore initialised to that
limit. -/
theorem fan_inflight_bounded (limit count : Nat) (st : FanState)
    (h : FanReachable limit count st) : st.inflight ≤ limit := by
  have hinv := fan_invariant limit count st h
  omega

/-- C6 witness: with the default limit 5 and three tasks, the state
after one acquisition has one call in flight, within the bound. -/
theorem fan_inflight_bounded_witness :
    (FanState.mk 2 1 4).inflight ≤ 5 :=
  fan_inflight_bounded 5 3 ⟨2, 1, 4⟩
    (Relation.ReflTransGen.single (FanStep.acquire 2 0 4))

/-- C10: for a response whose first choice's content decodes to a JSON
object, extract_corrections reads corrections and suggestion from under
the top-level "properties" key, each defaulting when absent; an object
without "properties" — in particular a flat object with top-level
corrections and suggestion keys — yields ([], ""), and a non-object
"properties" value raises AttributeError. -/
theorem extract_reads_under_properties (rm : Resp) (c0 : Choice)
    (rest : List Choice) (kvs : List (String × Json))
    (hc : rm.choices.getD [] = c0 :: rest)
    (hcont : contentOf c0 = ContentV.parsed (Json.obj kvs)) :
    extract_corrections (some rm) =
      (match kvs.lookup "properties" with
       | some (Json.obj pkvs) =>
           Except.ok ((pkvs.lookup "corrections").getD (Json.arr []),
                     (pkvs.lookup "suggestion").getD (Json.str ""))
       | some _ => Except.error PyErr.attributeError
       | none => Except.ok (Json.arr [], Json.str "")) := by
  simp only [extract_corrections, hc, hcont, jsonLoads]
  cases hp : kvs.lookup "properties" with
  | none => simp only [pyGet, hp]; rfl
  | some v => cases v <;> simp only [pyGet, hp] <;> rfl

/-- C10 witness: a flat object with top-level corrections and suggestion
keys but no "properties" key yields ([], ""). -/
theorem extract_reads_under_properties_witness :
    extract_corrections
        (some ⟨some [⟨some ⟨ContentV.parsed
          (Json.obj [("corrections", Json.arr [Json.str "x"]),
                     ("suggestion", Json.str "s")])⟩⟩]⟩) =
      (match ([("corrections", Json.arr [Json.str "x"]),
              ("suggestion", Json.str "s")] :
                List (String × Json)).lookup "properties" with
       | some (Json.obj pkvs) =>
           Except.ok ((pkvs.lookup "corrections").getD (Json.arr []),
                     (pkvs.lookup "suggestion").getD (Json.str ""))
       | some _ => Except.error PyErr.attributeError
       | none => Except.ok (Json.arr [], Json.str "")) :=
  extract_reads_under_properties
    ⟨some [⟨some ⟨ContentV.parsed
      (Json.obj [("corrections", Json.arr [Json.str "x"]),
                 ("suggestion", Json.str "s")])⟩⟩]⟩
    ⟨some ⟨ContentV.parsed
      (Json.obj [("corrections", Json.arr [Json.str "x"]),
                 ("suggestion", Json.str "s")])⟩⟩
    []
    [("corrections", Json.arr [Json.str "x"]),
     ("suggestion", Json.str "s")] rfl rfl

/-- A successful discriminator call whose valid_corrections is a list
and whose rejected_corrections supports len() passes its parsed object
through validate_corrections unchanged (the logging line succeeds). -/
theorem validate_ok_of_sized (corrections : List Json) (t : String)
    (vr : List (String × Json)) (vcs : List Json) (m : Nat)
    (hv : vr.lookup "valid_corrections" = some (Json.arr vcs))
    (hr : pyLen ((vr.lookup "rejected_corrections").getD (Json.arr [])) =
      Except.ok m) :
    validate_corrections corrections t (DOutcome.ok vr) = vr := by
  simp only [validate_corrections, hv, Option.getD_some]
  rw [hr]
  rfl

/-- C3 amended: when the discriminator call succeeds with a numeric
quality_score below the threshold, the result is the first
max(1, len/2) entries of the discriminator's valid_corrections list —
hence at most that many — and it is non-empty whenever
valid_corrections is non-empty; it can be empty when the discriminator
accepted nothing, even for a non-empty input (see the counterexample). -/
theorem filter_low_quality_truncation (corrections : List Json)
    (t : String) (min_q : Int) (vr : List (String × Json))
    (vcs : List Json) (q : Int) (m : Nat)
    (hv : vr.lookup "valid_corrections" = some (Json.arr vcs))
    (hq : vr.lookup "quality_score" = some (Json.num q))
    (hr : pyLen ((vr.lookup "rejected_corrections").getD (Json.arr [])) =
      Except.ok m)
    (hlow : q < min_q) :
    ∃ meta : Json,
      filter_corrections corrections t min_q (DOutcome.ok vr) =
        Except.ok (Json.arr (vcs.take (max 1 (vcs.length / 2))), meta) ∧
      (vcs.take (max 1 (vcs.length / 2))).length ≤ max 1 (vcs.length / 2) ∧
      (vcs ≠ [] → vcs.take (max 1 (vcs.length / 2)) ≠ []) := by
  refine ⟨Json.obj [("discriminator_used", Json.bool true),
      ("quality_score", Json.num q),
      ("original_count", Json.num corrections.length),
      ("filtered_count", Json.num (vcs.take (max 1 (vcs.length / 2))).length),
      ("rejected_count", Json.num m),
      ("summary", (vr.lookup "summary").getD (Json.str "")),
      ("rejected_reasons", (vr.lookup "rejected_corrections").getD (Json.arr []))],
    ?_, List.length_take_le _ _, ?_⟩
  · simp only [filter_corrections]
    rw [validate_ok_of_sized corrections t vr vcs m hv hr]
    simp only [filter_post, hv, hq, Option.getD_some, pyLtInt,
      decide_eq_true hlow]
    rw [hr]
    rfl
  · intro hne
    have hlen : 0 < vcs.length := List.length_pos.mpr hne
    apply List.ne_nil_of_length_pos
    rw [List.length_take]
    omega

/-- C3 witness: three accepted corrections at quality 40 against
threshold 70 are truncated to max(1, 3/2) = 1 entry, which is
non-empty. -/
theorem filter_low_quality_truncation_witness :
    ∃ meta : Json,
      filter_corrections [Json.str "c1", Json.str "c2", Json.str "c3"] "" 70
          (DOutcome.ok
            [("valid_corrections",
              Json.arr [Json.str "c1", Json.str "c2", Json.str "c3"]),
             ("quality_score", Json.num 40),
             ("rejected_corrections", Json.arr [])]) =
        Except.ok (Json.arr
          (([Json.str "c1", Json.str "c2", Json.str "c3"] : List Json).take
            (max 1 (([Json.str "c1", Json.str "c2", Json.str "c3"] :
              List Json).length / 2))), meta) ∧
      (([Json.str "c1", Json.str "c2", Json.str "c3"] : List Json).take
          (max 1 (([Json.str "c1", Json.str "c2", Json.str "c3"] :
            List Json).length / 2))).length ≤
        max 1 (([Json.str "c1", Json.str "c2", Json.str "c3"] :
          List Json).length / 2) ∧
      (([Json.str "c1", Json.str "c2", Json.str "c3"] : List Json) ≠ [] →
        ([Json.str "c1", Json.str "c2", Json.str "c3"] : List Json).take
          (max 1 (([Json.str "c1", Json.str "c2", Json.str "c3"] :
            List Json).length / 2)) ≠ []) :=
  filter_low_quality_truncation
    [Json.str "c1", Json.str "c2", Json.str "c3"] "" 70
    [("valid_corrections",
      Json.arr [Json.str "c1", Json.str "c2", Json.str "c3"]),
     ("quality_score", Json.num 40),
     ("rejected_corrections", Json.arr [])]
    [Json.str "c1", Json.str "c2", Json.str "c3"] 40 0 rfl rfl rfl
    (by decide)

/-- Bind on a successful Except computation applies the continuation. -/
theorem except_bind_ok {ε α β : Type} (a : α) (f : α → Except ε β) :
    (Except.ok a >>= f) = f a := rfl

/-- Bind on a failed Except computation propagates the error. -/
theorem except_bind_error {ε α β : Type} (e : ε) (f : α → Except ε β) :
    ((Except.error e : Except ε α) >>= f) = Except.error e := rfl

/-- Bind after pure applies the continuation directly. -/
theorem except_pure_bind {ε α β : Type} (a : α) (f : α → Except ε β) :
    ((pure a : Except ε α) >>= f) = f a := rfl

/-- Pure in the Except monad is the ok constructor. -/
theorem except_pure_eq {ε α : Type} (a : α) :
    (pure a : Except ε α) = Except.ok a := rfl

/-- Whatever path filter_post takes to a successful result, the
quality_score entry of the returned metadata is exactly the value the
validation result reported (defaulting to 0 when absent): no clamping
or range check is applied. -/
theorem filter_post_quality_meta (corrections : List Json) (mq : Int)
    (vr : List (String × Json)) (fc : Json) (meta : List (String × Json))
    (h : filter_post corrections mq vr = Except.ok (fc, Json.obj meta)) :
    meta.lookup "quality_score" =
      some ((vr.lookup "quality_score").getD (Json.num 0)) := by
  simp only [filter_post] at h
  cases hlt : pyLtInt ((vr.lookup "quality_score").getD (Json.num 0)) mq with
  | error e => rw [hlt, except_bind_error] at h; exact Except.noConfusion h
  | ok low =>
    rw [hlt, except_bind_ok] at h
    cases low with
    | true =>
      simp only [if_pos] at h
      cases hn : pyLen ((vr.lookup "valid_corrections").getD (Json.arr [])) with
      | error e =>
        rw [hn, except_bind_error] at h
        exact Except.noConfusion h
      | ok n =>
        rw [hn, except_bind_ok] at h
        cases hs : pySliceTo ((vr.lookup "valid_corrections").getD (Json.arr []))
            (max 1 (n / 2)) with
        | error e =>
          rw [hs, except_bind_error] at h
          exact Except.noConfusion h
        | ok valid =>
          rw [hs, except_bind_ok] at h
          cases hf : pyLen valid with
          | error e =>
            rw [hf, except_bind_error] at h
            exact Except.noConfusion h
          | ok fcnt =>
            rw [hf, except_bind_ok] at h
            cases hrc : pyLen ((vr.lookup "rejected_corrections").getD (Json.arr [])) with
            | error e =>
              rw [hrc, except_bind_error] at h
              exact Except.noConfusion h
            | ok rcnt =>
              rw [hrc, except_bind_ok] at h
              injection h with h1
              injection h1 with h1 h2
              injection h2 with h2
              rw [← h2]
              rfl
    | false =>
      rw [if_neg (by decide : ¬ (false = true))] at h
      rw [except_pure_bind] at h
      cases hf : pyLen ((vr.lookup "valid_corrections").getD (Json.arr [])) with
      | error e =>
        rw [hf, except_bind_error] at h
        exact Except.noConfusion h
      | ok fcnt =>
        rw [hf, except_bind_ok] at h
        cases hrc : pyLen ((vr.lookup "rejected_corrections").getD (Json.arr [])) with
        | error e =>
          rw [hrc, except_bind_error] at h
          exact Except.noConfusion h
        | ok rcnt =>
          rw [hrc, except_bind_ok] at h
          injection h with h1
          injection h1 with h1 h2
          injection h2 with h2
          rw [← h2]
          rfl

/-- C9 amended: the metadata quality_score is the discriminator-reported
value verbatim — 50 on a failed call, 0 when absent, unclamped
otherwise — so it lies in [0, 100] exactly when the reported value does
(or the call failed); see the counterexample for a reported 150 copied
through unchanged. -/
theorem quality_score_passthrough (corrections : List Json) (t : String)
    (mq : Int) (o : DOutcome) (fc : Json) (meta : List (String × Json))
    (h : filter_corrections corrections t mq o = Except.ok (fc, Json.obj meta))
    (hq : qsReportedOk o) :
    ∃ q : Int, meta.lookup "quality_score" = some (Json.num q) ∧
      0 ≤ q ∧ q ≤ 100 := by
  have hm : meta.lookup "quality_score" =
      some (((validate_corrections corrections t o).lookup
        "quality_score").getD (Json.num 0)) :=
    filter_post_quality_meta corrections mq _ fc meta h
  cases o with
  | fail msg =>
    refine ⟨50, ?_, by decide, by decide⟩
    rw [hm]
    rfl
  | ok vr =>
    cases hvl : pyLen ((vr.lookup "valid_corrections").getD (Json.arr [])) with
    | error e =>
      refine ⟨50, ?_, by decide, by decide⟩
      rw [hm]
      simp only [validate_corrections, hvl]
      rfl
    | ok n1 =>
      cases hrl : pyLen ((vr.lookup "rejected_corrections").getD (Json.arr [])) with
      | error e =>
        refine ⟨50, ?_, by decide, by decide⟩
        rw [hm]
        simp only [validate_corrections, hvl, hrl]
        rfl
      | ok n2 =>
        have hval : validate_corrections corrections t (DOutcome.ok vr) = vr := by
          simp only [validate_corrections, hvl, hrl]
        rw [hval] at hm
        have hq' : (match vr.lookup "quality_score" with
            | none => True
            | some (Json.num q) => 0 ≤ q ∧ q ≤ 100
            | some _ => False) := hq
        cases hl : vr.lookup "quality_score" with
        | none =>
          refine ⟨0, ?_, le_refl 0, by decide⟩
          rw [hm, hl]
          rfl
        | some v =>
          rw [hl] at hq'
          cases v with
          | num q =>
            have hq2 : 0 ≤ q ∧ q ≤ 100 := hq'
            exact ⟨q, by rw [hm, hl]; rfl, hq2.1, hq2.2⟩
          | null => exact False.elim hq'
          | bool b => exact False.elim hq'
          | str s => exact False.elim hq'
          | arr xs => exact False.elim hq'
          | obj kvs => exact False.elim hq'

/-- C9 witness: a reported quality score of 88 appears verbatim in the
metadata and is within [0, 100]. -/
theorem quality_score_passthrough_witness :
    ∃ q : Int,
      ([("discriminator_used", Json.bool true),
        ("quality_score", Json.num 88),
        ("original_count", Json.num 0),
        ("filtered_count", Json.num 0),
        ("rejected_count", Json.num 0),
        ("summary", Json.str ""),
        ("rejected_reasons", Json.arr [])] :
          List (String × Json)).lookup "quality_score" =
        some (Json.num q) ∧ 0 ≤ q ∧ q ≤ 100 :=
  quality_score_passthrough [] "" 70
    (DOutcome.ok [("quality_score", Json.num 88)]) (Json.arr [])
    [("discriminator_used", Json.bool true),
     ("quality_score", Json.num 88),
     ("original_count", Json.num 0),
     ("filtered_count", Json.num 0),
     ("rejected_count", Json.num 0),
     ("summary", Json.str ""),
     ("rejected_reasons", Json.arr [])] rfl ⟨by decide, by decide⟩

/-- The results of a successful extraction loop pair each surviving
response, in order, with its extracted result. -/
theorem extractAll_forall2 (rs : List Resp) (out : List (Json × Json))
    (h : extractAll rs = Except.ok out) :
    List.Forall₂ (fun r p => extract_corrections (some r) = Except.ok p)
      rs out := by
  induction rs generalizing out with
  | nil =>
    simp only [extractAll] at h
    injection h with h1
    rw [← h1]
    exact List.Forall₂.nil
  | cons a l ih =>
    simp only [extractAll] at h
    cases he : extract_corrections (some a) with
    | error e =>
      rw [he, except_bind_error] at h
      exact Except.noConfusion h
    | ok p =>
      rw [he, except_bind_ok] at h
      cases hel : extractAll l with
      | error e =>
        rw [hel, except_bind_error] at h
        exact Except.noConfusion h
      | ok ps =>
        rw [hel, except_bind_ok] at h
        injection h with h1
        rw [← h1]
        exact List.Forall₂.cons he (ih ps hel)

/-- C5: a successful process_text run returns at most one result per
requested slot — failed calls are dropped, never padded — and pairs the
surviving responses, in submission order, with their extracted results. -/
theorem process_text_length_order (responses : List (Option Resp))
    (out : List (Json × Json) × List Resp)
    (h : process_text responses = Except.ok out) :
    out.1.length ≤ responses.length ∧
    List.Forall₂ (fun r p => extract_corrections (some r) = Except.ok p)
      (responses.filterMap id) out.1 := by
  unfold process_text at h
  by_cases hemp : (responses.filterMap id).isEmpty
  · rw [if_pos hemp] at h
    injection h with h1
    rw [← h1]
    have : responses.filterMap id = [] := List.isEmpty_iff.mp hemp
    rw [this]
    exact ⟨Nat.zero_le _, List.Forall₂.nil⟩
  · rw [if_neg hemp] at h
    cases hex : extractAll (responses.filterMap id) with
    | error e =>
      rw [hex, except_bind_error] at h
      exact Except.noConfusion h
    | ok results =>
      rw [hex, except_bind_ok] at h
      injection h with h1
      rw [← h1]
      have hf := extractAll_forall2 _ _ hex
      refine ⟨?_, hf⟩
      calc results.length = (responses.filterMap id).length :=
            (List.Forall₂.length_eq hf).symm
        _ ≤ responses.length := List.length_filterMap_le _ _

/-- C5 witness: five requested slots with two failed calls yield three
results, in the original order of the succeeding slots. -/
theorem process_text_length_order_witness :
    ([(Json.arr [], Json.str ""), (Json.arr [], Json.str ""),
      (Json.arr [], Json.str "")] : List (Json × Json)).length ≤
      ([some ⟨some []⟩, none, some ⟨some []⟩, none, some ⟨some []⟩] :
        List (Option Resp)).length ∧
    List.Forall₂ (fun r p => extract_corrections (some r) = Except.ok p)
      (([some ⟨some []⟩, none, some ⟨some []⟩, none, some ⟨some []⟩] :
        List (Option Resp)).filterMap id)
      [(Json.arr [], Json.str ""), (Json.arr [], Json.str ""),
       (Json.arr [], Json.str "")] :=
  process_text_length_order
    [some ⟨some []⟩, none, some ⟨some []⟩, none, some ⟨some []⟩]
    ([(Json.arr [], Json.str ""), (Json.arr [], Json.str ""),
      (Json.arr [], Json.str "")],
     [⟨some []⟩, ⟨some []⟩, ⟨some []⟩]) rfl

/-- C7: batch_validate produces one result per batch; the result at slot
i depends only on slot i's own batch, text and oracle outcome — an
exception raised while validating that batch is replaced by the
fail-open pair (that batch's original corrections, error metadata with
discriminator_used false) for that slot only, and every other slot is
exactly its own independent filter_corrections result. -/
theorem batch_validate_isolation (batches : List (List Json))
    (texts : List String) (outcomes : List DOutcome)
    (ht : texts.length = batches.length)
    (ho : outcomes.length = batches.length)
    (i : Nat) (hi : i < batches.length) :
    (batch_validate batches (some texts) outcomes).length = batches.length ∧
    (batch_validate batches (some texts) outcomes).getD i
        (Json.arr [], Json.obj []) =
      (match filter_corrections (batches.getD i []) (texts.getD i "") 70
          (outcomes.getD i (DOutcome.fail "")) with
       | .error e =>
           (Json.arr (batches.getD i []),
            Json.obj [("error", Json.str (pyErrStr e)),
                      ("discriminator_used", Json.bool false)])
       | .ok r => r) := by
  have hlen : (batch_validate batches (some texts) outcomes).length =
      batches.length := by
    simp [batch_validate, ht, ho]
  refine ⟨hlen, ?_⟩
  have hib : i < (batch_validate batches (some texts) outcomes).length := by
    rw [hlen]; exact hi
  rw [List.getD_eq_getElem _ _ hib]
  have hit : i < texts.length := by rw [ht]; exact hi
  have hio : i < outcomes.length := by rw [ho]; exact hi
  rw [List.getD_eq_getElem batches _ hi, List.getD_eq_getElem texts _ hit,
    List.getD_eq_getElem outcomes _ hio]
  simp only [batch_validate, Option.getD_some, List.enum_eq_enumFrom,
    List.getElem_map, List.getElem_enumFrom, List.getElem_zip, Nat.zero_add]
  rw [List.getD_eq_getElem batches _ hi]

/-- C7 witness: with two batches where the second's discriminator
reports a non-numeric quality score (making its filter_corrections
raise TypeError), slot 1 is exactly the fail-open pair for its own batch
while the result list still has one entry per batch. -/
theorem batch_validate_isolation_witness :
    (batch_validate [[Json.str "a"], [Json.str "b"]] (some ["", ""])
        [DOutcome.ok [("valid_corrections", Json.arr [Json.str "a"]),
                      ("quality_score", Json.num 90)],
         DOutcome.ok [("quality_score", Json.str "korkea")]]).length =
      ([[Json.str "a"], [Json.str "b"]] : List (List Json)).length ∧
    (batch_validate [[Json.str "a"], [Json.str "b"]] (some ["", ""])
        [DOutcome.ok [("valid_corrections", Json.arr [Json.str "a"]),
                      ("quality_score", Json.num 90)],
         DOutcome.ok [("quality_score", Json.str "korkea")]]).getD 1
        (Json.arr [], Json.obj []) =
      (match filter_corrections
          (([[Json.str "a"], [Json.str "b"]] : List (List Json)).getD 1 [])
          ((["", ""] : List String).getD 1 "") 70
          (([DOutcome.ok [("valid_corrections", Json.arr [Json.str "a"]),
                          ("quality_score", Json.num 90)],
             DOutcome.ok [("quality_score", Json.str "korkea")]] :
              List DOutcome).getD 1 (DOutcome.fail "")) with
       | .error e =>
           (Json.arr (([[Json.str "a"], [Json.str "b"]] :
              List (List Json)).getD 1 []),
            Json.obj [("error", Json.str (pyErrStr e)),
                      ("discriminator_used", Json.bool false)])
       | .ok r => r) :=
  batch_validate_isolation [[Json.str "a"], [Json.str "b"]] ["", ""]
    [DOutcome.ok [("valid_corrections", Json.arr [Json.str "a"]),
                  ("quality_score", Json.num 90)],
     DOutcome.ok [("quality_score", Json.str "korkea")]] rfl rfl 1
    (by decide)

end KieloApp
